import Mathlib

/-!
Shallow embedding of `dingo/gw/waveform_dataset.py` (classes `SVDBasis` and
`WaveformDataset`), for checking the natural-language specification against the
code.

Conventions of the embedding:
* numpy 2-D arrays become `Mat α`: a (row, column) shape together with an entry
  function; numpy row slicing `A[:k, :]` becomes `Mat.takeRows` and column
  slicing `A[:, :k]` becomes `Mat.takeCols`, both with numpy's clamping
  semantics (`min` on the shape, entries untouched).
* numpy 1-D arrays (frequency series, basis-coefficient vectors) become
  `List α`.
* Entries live in an arbitrary commutative star ring `α` (exact arithmetic;
  floating-point precision is tracked separately by the `Dtype` model below).
* Python exceptions become `Except PyErr`; the constructors of `PyErr` are the
  Python exception classes the code actually raises.
* The external SVD routines (`sklearn.utils.extmath.randomized_svd` and
  `scipy.linalg.svd`) are external library collaborators; their `Vh` outputs
  are passed to `generate_basis` as arguments (`randVh`, parameterized by the
  resolved component count, and `scipyVh`), with the thin-SVD shape guarantees
  carried as hypotheses in the theorems that need them.
-/

namespace Dingo

/-- Python exception classes raised by the code under study. -/
inductive PyErr where
  | typeError
  | keyError
  | valueError
  | indexError
deriving DecidableEq

instance {ε τ : Type*} [DecidableEq ε] [DecidableEq τ] : DecidableEq (Except ε τ) := fun a b =>
  match a, b with
  | Except.ok x, Except.ok y => decidable_of_iff (x = y) (by simp)
  | Except.ok _, Except.error _ => isFalse (fun h => Except.noConfusion h)
  | Except.error _, Except.ok _ => isFalse (fun h => Except.noConfusion h)
  | Except.error x, Except.error y => decidable_of_iff (x = y) (by simp)

/-- A numpy 2-D array: shape `(r, c)` plus an entry function. -/
structure Mat (α : Type*) where
  r : ℕ
  c : ℕ
  f : ℕ → ℕ → α

variable {α : Type*} {π : Type*}

/-- numpy `A.T.conj()`. -/
def Mat.conjT [Star α] (A : Mat α) : Mat α :=
  ⟨A.c, A.r, fun i j => star (A.f j i)⟩

/-- numpy `A[:k, :]` (row slicing clamps: at most `A.r` rows are taken). -/
def Mat.takeRows (A : Mat α) (k : ℕ) : Mat α :=
  ⟨min k A.r, A.c, A.f⟩

/-- numpy `A[:, :k]` (column slicing clamps: at most `A.c` columns are taken). -/
def Mat.takeCols (A : Mat α) (k : ℕ) : Mat α :=
  ⟨A.r, min k A.c, A.f⟩

/-- numpy `len(A)` for a 2-D array: the number of rows. -/
def Mat.len (A : Mat α) : ℕ := A.r

/-- numpy `v @ A` for a 1-D `v` and 2-D `A`: contraction over the entries of
`v` (numpy requires `v.length = A.r`; shape compatibility is a hypothesis of
the theorems that need it). -/
def vecMulMat [CommRing α] (v : List α) (A : Mat α) : List α :=
  (List.range A.c).map (fun j => ∑ k ∈ Finset.range v.length, v.getD k 0 * A.f k j)

/-- State of a `SVDBasis` object: `__init__` sets `V`, `Vh` and `n` to `None`. -/
structure SVDBasis (α : Type*) where
  V : Option (Mat α)
  Vh : Option (Mat α)
  n : Option ℕ

/-- `SVDBasis.__init__`. -/
def SVDBasis.init : SVDBasis α := ⟨none, none, none⟩

/-- `SVDBasis.generate_basis(training_data, n, method)` (lines 20-64).

`randVh k` stands for the third component of `randomized_svd(training_data, k)`
and `scipyVh` for the third component of
`scipy.linalg.svd(training_data, full_matrices=False)`; both are external
library calls.  The `astype(np.complex64)` on the random branch only changes
the floating-point precision of the entries, which this value-level model
(exact arithmetic) does not represent; precision is tracked by
`generate_basis_dtype` below.  On the unsupported-method branch the source
raises `ValueError` before assigning any attribute, so the caller's state is
unchanged; here that is the `Except.error` return. -/
def SVDBasis.generate_basis (_self : SVDBasis α) [CommRing α] [StarRing α]
    (training_data : Mat α) (randVh : ℕ → Mat α) (scipyVh : Mat α)
    (n : ℕ) (method : String) : Except PyErr (SVDBasis α) :=
  if method = "random" then
    let n' := if n = 0 then min training_data.r training_data.c else n
    let Vh := randVh n'
    Except.ok { V := some Vh.conjT, Vh := some Vh, n := some n' }
  else if method = "scipy" then
    let Vh := scipyVh
    let V := Vh.conjT
    if n = 0 ∨ V.len < n then
      Except.ok { V := some V, Vh := some Vh, n := some Vh.len }
    else
      Except.ok { V := some (V.takeCols n), Vh := some (Vh.takeRows n),
                  n := some (Vh.takeRows n).len }
  else
    Except.error PyErr.valueError

/-- `SVDBasis.basis_coefficients_to_fseries(coefficients)` (lines 66-75):
`coefficients @ self.Vh`; when `self.Vh` is `None` (no basis generated or
loaded) the matrix product with `None` raises `TypeError`. -/
def SVDBasis.basis_coefficients_to_fseries [CommRing α] (self : SVDBasis α)
    (coefficients : List α) : Except PyErr (List α) :=
  match self.Vh with
  | none => Except.error PyErr.typeError
  | some Vh => Except.ok (vecMulMat coefficients Vh)

/-- `SVDBasis.fseries_to_basis_coefficients(fseries)` (lines 77-86):
`fseries @ self.V`; when `self.V` is `None` the product raises `TypeError`. -/
def SVDBasis.fseries_to_basis_coefficients [CommRing α] (self : SVDBasis α)
    (fseries : List α) : Except PyErr (List α) :=
  match self.V with
  | none => Except.error PyErr.typeError
  | some V => Except.ok (vecMulMat fseries V)

/-- `SVDBasis.from_file(filename)` (lines 88-99): `V` is the matrix read from
the `.npy` file (`np.load` is bit-exact), `Vh` is recomputed as `V.T.conj()`,
`n` is `V.shape[1]`. -/
def SVDBasis.from_file [Star α] (V : Mat α) : SVDBasis α :=
  { V := some V, Vh := some V.conjT, n := some V.c }

/-- `SVDBasis.to_file(filename)` (lines 101-111): the content written to the
file is `V` when it is set; otherwise nothing is written (`none`). -/
def SVDBasis.to_file (self : SVDBasis α) : Option (Mat α) :=
  self.V

/-- numpy dtypes relevant to the basis matrices. -/
inductive Dtype where
  | float32
  | float64
  | complex64
  | complex128
deriving DecidableEq

/-- dtype of the factors returned by `scipy.linalg.svd`: the input's
floating-point precision and realness are preserved (sgesdd/dgesdd/cgesdd/
zgesdd are dispatched on the input dtype). -/
def scipy_svd_dtype : Dtype → Dtype
  | Dtype.float32 => Dtype.float32
  | Dtype.float64 => Dtype.float64
  | Dtype.complex64 => Dtype.complex64
  | Dtype.complex128 => Dtype.complex128

/-- dtype-level model of `SVDBasis.generate_basis` (lines 41-64): the dtype of
the stored `V`/`Vh` (both share one dtype, since `V = Vh.T.conj()` or
`Vh = V.T.conj()` preserves dtype).  The random branch applies
`astype(np.complex64)` (line 47), so its result is `complex64` whatever the
input; the scipy branch stores the SVD factors without any cast (lines 52-60),
so its result follows the input dtype. -/
def generate_basis_dtype (input : Dtype) (method : String) : Except PyErr Dtype :=
  if method = "random" then
    Except.ok Dtype.complex64
  else if method = "scipy" then
    Except.ok (scipy_svd_dtype input)
  else
    Except.error PyErr.valueError

/-- One record served by `WaveformDataset.__getitem__`: the nested dictionary
`{'parameters': ..., 'waveform': {'h_plus': ..., 'h_cross': ...}}`, with the
parameter record kept abstract (`π`). -/
structure SampleRec (π α : Type*) where
  parameters : π
  h_plus : List α
  h_cross : List α
deriving DecidableEq

/-- Content of a waveform dataset HDF5 file, as far as `WaveformDataset.load`
reads it: a `parameters` record array, the `waveform_polarizations` group (an
association of column names to per-sample vectors) and the optional
`rb_matrix_V` matrix.  The `settings` attribute and the domain construction
(lines 195-196) feed the out-of-scope `Domain` collaborator and are not
modelled. -/
structure DatasetFile (π α : Type*) where
  parameters : List π
  waveform_polarizations : List (String × List (List α))
  rb_matrix_V : Option (Mat α)

/-- State of a `WaveformDataset` object after `__init__` (which stores the
transform, sets `self._Vh = None` and calls `load`).  `_Vh` is always present
in `self.__dict__`, holding `None` unless the file had a `rb_matrix_V` entry. -/
structure WaveformDataset (π α : Type*) where
  parameter_samples : List π
  hplus : List (List α)
  hcross : List (List α)
  _Vh : Option (Mat α)
  transform : Option (SampleRec π α → SampleRec π α)

/-- `WaveformDataset.__init__` + `load` (lines 126-137, 171-198), as a function
from the file content to the loaded object.  The dict comprehension
`{k: [x for x in polarization_dict_2d[k]] for k in ['h_plus', 'h_cross']}`
raises `KeyError` when a key is absent from the group (looking up `h_plus`
first); `pd.DataFrame` on a dict of unequal-length columns raises `ValueError`.
No comparison between the parameter row count and the waveform row count is
performed anywhere.  When `rb_matrix_V` is present, `self._Vh = V.T.conj()`
(lines 191-193); otherwise `_Vh` keeps the `None` stored by `__init__`. -/
def WaveformDataset.load [Star α] (transform : Option (SampleRec π α → SampleRec π α))
    (fp : DatasetFile π α) : Except PyErr (WaveformDataset π α) :=
  match fp.waveform_polarizations.lookup "h_plus" with
  | none => Except.error PyErr.keyError
  | some hp =>
    match fp.waveform_polarizations.lookup "h_cross" with
    | none => Except.error PyErr.keyError
    | some hc =>
      if hp.length = hc.length then
        Except.ok { parameter_samples := fp.parameters, hplus := hp, hcross := hc,
                    _Vh := fp.rb_matrix_V.map Mat.conjT, transform := transform }
      else
        Except.error PyErr.valueError

/-- `WaveformDataset.__len__` (lines 140-142). -/
def WaveformDataset.len (self : WaveformDataset π α) : ℕ :=
  self.parameter_samples.length

/-- Python index normalization: a negative index counts from the end. -/
def pyindex (len : ℕ) (idx : ℤ) : ℤ :=
  if idx < 0 then idx + len else idx

/-- pandas `.iloc[idx]` for an integer index: Python indexing semantics
(negative indices count from the end), raising `IndexError` out of bounds. -/
def iloc {τ : Type*} (l : List τ) (idx : ℤ) : Except PyErr τ :=
  if 0 ≤ pyindex l.length idx then
    match l.get? (pyindex l.length idx).toNat with
    | some x => Except.ok x
    | none => Except.error PyErr.indexError
  else
    Except.error PyErr.indexError

/-- `WaveformDataset.__getitem__` (lines 145-159).  The guard
`'_Vh' in self.__dict__` (line 154) is always true, because `__init__`
unconditionally assigns `self._Vh = None` (line 136); so the projection lines
always execute, and when `_Vh` is `None` the product `h_plus @ None` raises
`TypeError`. -/
def WaveformDataset.getitem [CommRing α] (self : WaveformDataset π α)
    (idx : ℤ) : Except PyErr (SampleRec π α) :=
  match iloc self.parameter_samples idx with
  | Except.error e => Except.error e
  | Except.ok parameters =>
    match iloc self.hplus idx with
    | Except.error e => Except.error e
    | Except.ok hp =>
      match iloc self.hcross idx with
      | Except.error e => Except.error e
      | Except.ok hc =>
        match self._Vh with
        | none => Except.error PyErr.typeError
        | some Vh =>
          let data : SampleRec π α := ⟨parameters, vecMulMat hp Vh, vecMulMat hc Vh⟩
          match self.transform with
          | some t => Except.ok (t data)
          | none => Except.ok data

/-! Concrete instances used by the per-claim counterexamples and witnesses.
Entries are taken in `ℤ` or in the Gaussian integers (an exact complex ring
with a genuinely non-trivial conjugation), so that everything evaluates. -/

/-- Stored basis matrix `[[i]]` for the C1 instance. -/
def C1V : Mat GaussianInt := ⟨1, 1, fun _ _ => ⟨0, 1⟩⟩

/-- Dataset file with one sample and a persisted `rb_matrix_V` for C1. -/
def C1file : DatasetFile (List (String × ℚ)) GaussianInt :=
  ⟨[[("m1", 30), ("m2", 25)]], [("h_plus", [[1]]), ("h_cross", [[1]])], some C1V⟩

/-- The dataset object `WaveformDataset.load` produces from `C1file`. -/
def C1ds : WaveformDataset (List (String × ℚ)) GaussianInt :=
  ⟨[[("m1", 30), ("m2", 25)]], [[1]], [[1]], some C1V.conjT, none⟩

/-- Dataset file with 3 samples, two-element complex waveform vectors
`[1, i]` per polarization and no persisted basis, for C2 (the spec's §8
example). -/
def C2file : DatasetFile (List (String × ℚ)) GaussianInt :=
  ⟨[[("m1", 30), ("m2", 25)], [("m1", 31), ("m2", 24)], [("m1", 32), ("m2", 23)]],
   [("h_plus", [[1, ⟨0, 1⟩], [1, ⟨0, 1⟩], [1, ⟨0, 1⟩]]),
    ("h_cross", [[1, ⟨0, 1⟩], [1, ⟨0, 1⟩], [1, ⟨0, 1⟩]])],
   none⟩

/-- Dataset file whose parameter table has 2 rows while the waveform table has
1 row, for C3. -/
def C3file : DatasetFile ℚ ℤ := ⟨[1, 2], [("h_plus", [[5]]), ("h_cross", [[7]])], none⟩

/-- Dataset file whose waveform group is missing the h_plus column, for C3. -/
def C3missing : DatasetFile ℚ ℤ := ⟨[1], [("h_cross", [[1]])], none⟩

/-- Training matrix of shape (2, 3) for the C6 witness. -/
def C6train : Mat ℤ := ⟨2, 3, fun _ _ => 0⟩

/-- Thin-SVD right factor of shape (2, 3) for the C6 witness. -/
def C6Vh : Mat ℤ := ⟨2, 3, fun i j => (i : ℤ) + j⟩

/-- Randomized-SVD oracle for the C6 witness. -/
def C6rand : ℕ → Mat ℤ := fun k => ⟨k, 3, fun _ _ => 0⟩

/-- Training matrix for the C7 witness. -/
def C7train : Mat ℤ := ⟨1, 1, fun _ _ => 0⟩

/-- Randomized-SVD oracle for the C7 witness. -/
def C7rand : ℕ → Mat ℤ := fun k => ⟨k, 1, fun _ _ => 0⟩

/-- Thin-SVD right factor for the C7 witness. -/
def C7Vh : Mat ℤ := ⟨1, 1, fun _ _ => 0⟩

/-- Basis matrix of shape (2, 1) with non-real entries for the C8 witness. -/
def C8V : Mat GaussianInt := ⟨2, 1, fun i j => ⟨i, j + 1⟩⟩

/-- Initialized basis object for the C8 witness. -/
def C8basis : SVDBasis GaussianInt := SVDBasis.from_file C8V

/-- Training matrix of shape (1, 1) for the C9 instances. -/
def C9train : Mat ℤ := ⟨1, 1, fun _ _ => 0⟩

/-- Randomized-SVD oracle for `C9train` with sklearn's real row count:
`randomized_svd(M, k)` returns a factor with `min(k, min(M.shape))` rows — the
economic QR inside `randomized_range_finder` returns at most `min(M.shape)`
columns and the final `Vt[:n_components]` slice clamps, with no error raised
for oversized requests.  For the 1-by-1 `C9train` this is `min(k, 1)` rows. -/
def C9clampRand : ℕ → Mat ℤ := fun k => ⟨min k 1, 1, fun _ _ => 0⟩

/-- Thin-SVD right factor for the C9 instances. -/
def C9Vh : Mat ℤ := ⟨1, 1, fun _ _ => 2⟩

/-- Loaded dataset with 2 samples for the C10 witness. -/
def C10ds : WaveformDataset ℤ ℤ :=
  ⟨[10, 20], [[1], [2]], [[3], [4]], some ⟨1, 1, fun _ _ => 1⟩, none⟩

/-! Helper lemmas (shared). -/

theorem Mat.conjT_conjT [InvolutiveStar α] (A : Mat α) : A.conjT.conjT = A := by
  cases A with
  | mk r c f =>
    simp only [Mat.conjT, Mat.mk.injEq, true_and]
    funext i j
    exact star_star _

theorem Mat.conjT_takeCols [Star α] (A : Mat α) (k : ℕ) :
    (A.takeCols k).conjT = A.conjT.takeRows k := rfl

theorem pyindex_neg (len : ℕ) (i : ℤ) (h1 : -(len : ℤ) ≤ i) (h2 : i < 0) :
    pyindex len i = pyindex len ((len : ℤ) + i) := by
  unfold pyindex
  rw [if_pos h2, if_neg (by omega)]
  omega

theorem iloc_neg {τ : Type*} (l : List τ) (i : ℤ)
    (h1 : -(l.length : ℤ) ≤ i) (h2 : i < 0) :
    iloc l i = iloc l ((l.length : ℤ) + i) := by
  unfold iloc
  rw [pyindex_neg l.length i h1 h2]

theorem iloc_ok {τ : Type*} (l : List τ) (i : ℤ)
    (h1 : -(l.length : ℤ) ≤ i) (h2 : i < 0) :
    ∃ x, iloc l i = Except.ok x := by
  have hp : pyindex l.length i = i + l.length := if_pos h2
  have h0 : 0 ≤ pyindex l.length i := by rw [hp]; omega
  have hlt : (pyindex l.length i).toNat < l.length := by rw [hp]; omega
  refine ⟨l.get ⟨(pyindex l.length i).toNat, hlt⟩, ?_⟩
  unfold iloc
  rw [if_pos h0, List.get?_eq_get hlt]

theorem getitem_eq [CommRing α] (d : WaveformDataset π α) (idx : ℤ)
    (p : π) (hp hc : List α)
    (h1 : iloc d.parameter_samples idx = Except.ok p)
    (h2 : iloc d.hplus idx = Except.ok hp)
    (h3 : iloc d.hcross idx = Except.ok hc) :
    d.getitem idx =
      match d._Vh with
      | none => Except.error PyErr.typeError
      | some Vh =>
        match d.transform with
        | some t => Except.ok (t ⟨p, vecMulMat hp Vh, vecMulMat hc Vh⟩)
        | none => Except.ok ⟨p, vecMulMat hp Vh, vecMulMat hc Vh⟩ := by
  unfold WaveformDataset.getitem
  rw [h1, h2, h3]

theorem load_ok_dest [Star α] (t : Option (SampleRec π α → SampleRec π α))
    (fp : DatasetFile π α) (d : WaveformDataset π α)
    (h : WaveformDataset.load t fp = Except.ok d) :
    d._Vh = fp.rb_matrix_V.map Mat.conjT ∧ d.transform = t ∧
    d.parameter_samples = fp.parameters := by
  unfold WaveformDataset.load at h
  split at h
  · exact Except.noConfusion h
  · split at h
    · exact Except.noConfusion h
    · split at h
      · injection h with h'
        subst h'
        exact ⟨rfl, rfl, rfl⟩
      · exact Except.noConfusion h

/-! Claim theorems. -/

/-- Claim C2 (code bug): the claim says that on a dataset loaded from a file
with no persisted basis matrix and an empty transform chain, get(index)
returns the indexed row unmodified.  The code instead raises `TypeError` on
every access: the guard at line 154 tests membership of the key in
`self.__dict__`, which is always true because `__init__` (line 136)
unconditionally assigns `self._Vh = None`, so line 155 computes
`h_plus @ None`.  This theorem evaluates the code at the failing input — the
spec's own §8 example, a 3-sample table with no basis and no transforms,
accessed at index 1. -/
theorem spec_C2_code_bug :
    (WaveformDataset.load none C2file).bind (fun d => d.getitem 1) =
      Except.error PyErr.typeError := by decide

/-- Claim C4 (confirmed): on a basis object on which no basis was generated or
loaded (V and Vh still None, as `__init__` leaves them), both
`fseries_to_basis_coefficients` (project) and `basis_coefficients_to_fseries`
(reconstruct) fail — the matrix product with None raises `TypeError`, the
failure the spec's taxonomy names BasisNotInitialized. -/
theorem spec_C4_uninitialized_fails [CommRing α] (b : SVDBasis α)
    (hV : b.V = none) (hVh : b.Vh = none) :
    (∀ fs, b.fseries_to_basis_coefficients fs = Except.error PyErr.typeError) ∧
    (∀ cs, b.basis_coefficients_to_fseries cs = Except.error PyErr.typeError) := by
  constructor
  · intro fs
    unfold SVDBasis.fseries_to_basis_coefficients
    rw [hV]
  · intro cs
    unfold SVDBasis.basis_coefficients_to_fseries
    rw [hVh]

/-- Witness for C4 at the freshly-initialized basis object. -/
theorem spec_C4_witness :
    (SVDBasis.init : SVDBasis ℤ).V = none ∧ (SVDBasis.init : SVDBasis ℤ).Vh = none ∧
    ((∀ fs, (SVDBasis.init : SVDBasis ℤ).fseries_to_basis_coefficients fs =
        Except.error PyErr.typeError) ∧
     (∀ cs, (SVDBasis.init : SVDBasis ℤ).basis_coefficients_to_fseries cs =
        Except.error PyErr.typeError)) :=
  ⟨rfl, rfl, spec_C4_uninitialized_fails SVDBasis.init rfl rfl⟩

/-- Claim C5 counterexample: the claim says both supported methods store V/Vh
in one fixed complex precision independent of the input dtype.  On a
complex128 training matrix the random method stores complex64 (the
`astype(np.complex64)` at line 47) while the scipy method stores complex128
(lines 52-60 perform no cast), so the stored precision depends on the method
and, for scipy, on the input. -/
theorem spec_C5_counterexample :
    generate_basis_dtype Dtype.complex128 "random" = Except.ok Dtype.complex64 ∧
    generate_basis_dtype Dtype.complex128 "scipy" = Except.ok Dtype.complex128 ∧
    Dtype.complex128 ≠ Dtype.complex64 := by decide

/-- Claim C5 amended: only the random method casts the stored basis to the
fixed precision complex64; the scipy method stores V/Vh in the SVD output's
dtype, which follows the input dtype (and is real for real input). -/
theorem spec_C5_amended (d : Dtype) :
    generate_basis_dtype d "random" = Except.ok Dtype.complex64 ∧
    generate_basis_dtype d "scipy" = Except.ok (scipy_svd_dtype d) ∧
    scipy_svd_dtype d = d := by
  cases d <;> exact ⟨rfl, rfl, rfl⟩

/-- Claim C7 (confirmed): for any method other than the two supported ones,
`generate_basis` raises `ValueError` (the spec's UnsupportedMethod), and since
the raise at line 64 happens before any attribute assignment, the previously
stored V/Vh/n are untouched — in this functional embedding, the error return
produces no new state, leaving the caller's basis object as it was. -/
theorem spec_C7_unsupported_method [CommRing α] [StarRing α] (b : SVDBasis α)
    (training_data : Mat α) (randVh : ℕ → Mat α) (scipyVh : Mat α)
    (n : ℕ) (method : String)
    (hm1 : method ≠ "random") (hm2 : method ≠ "scipy") :
    b.generate_basis training_data randVh scipyVh n method =
      Except.error PyErr.valueError := by
  unfold SVDBasis.generate_basis
  rw [if_neg hm1, if_neg hm2]

/-- Witness for C7 at method = bogus. -/
theorem spec_C7_witness :
    ("bogus" ≠ "random") ∧ ("bogus" ≠ "scipy") ∧
    SVDBasis.generate_basis (SVDBasis.init : SVDBasis ℤ) C7train C7rand C7Vh 1 "bogus" =
      Except.error PyErr.valueError :=
  ⟨by decide, by decide,
   spec_C7_unsupported_method SVDBasis.init C7train C7rand C7Vh 1 "bogus"
     (by decide) (by decide)⟩

/-- Claim C1 counterexample: the claim says the accessor's transparent
projection of h_plus/h_cross equals `fseries_to_basis_coefficients` with the
same stored basis (multiplying by the derived `_Vh` equals multiplying by V).
For the stored matrix `V = [[i]]` and waveform `[1]`, the accessor computes
`[1] @ V.T.conj() = [-i]`, while project with the same stored V computes
`[1] @ V = [i]`; the two full records differ. -/
theorem spec_C1_counterexample :
    (WaveformDataset.load none C1file).bind (fun d => d.getitem 0) ≠
      (SVDBasis.fseries_to_basis_coefficients (SVDBasis.from_file C1V) [1]).map
        (fun coeffs => ⟨[("m1", 30), ("m2", 25)], coeffs, coeffs⟩) := by decide

/-- Claim C1 amended: in the loaded dataset the accessor multiplies the raw
polarization vectors by `_Vh`, the conjugate transpose of the stored
`rb_matrix_V`; this equals `fseries_to_basis_coefficients` applied with the
basis matrix taken to be that conjugate transpose — not with the stored matrix
itself, with which it agrees only when the stored matrix is Hermitian. -/
theorem spec_C1_amended [CommRing α] [StarRing α]
    (fp : DatasetFile π α) (Vst : Mat α) (d : WaveformDataset π α)
    (hrb : fp.rb_matrix_V = some Vst)
    (hload : WaveformDataset.load none fp = Except.ok d)
    (idx : ℤ) (p : π) (hp hc : List α)
    (h1 : iloc d.parameter_samples idx = Except.ok p)
    (h2 : iloc d.hplus idx = Except.ok hp)
    (h3 : iloc d.hcross idx = Except.ok hc) :
    d.getitem idx =
      Except.ok ⟨p, vecMulMat hp Vst.conjT, vecMulMat hc Vst.conjT⟩ ∧
    SVDBasis.fseries_to_basis_coefficients (SVDBasis.from_file Vst.conjT) hp =
      Except.ok (vecMulMat hp Vst.conjT) ∧
    SVDBasis.fseries_to_basis_coefficients (SVDBasis.from_file Vst.conjT) hc =
      Except.ok (vecMulMat hc Vst.conjT) := by
  obtain ⟨hVh, htr, _⟩ := load_ok_dest none fp d hload
  refine ⟨?_, rfl, rfl⟩
  rw [getitem_eq d idx p hp hc h1 h2 h3, hVh, hrb, htr]
  rfl

/-- Witness for C1 amended at the concrete one-sample dataset. -/
theorem spec_C1_amended_witness :
    C1file.rb_matrix_V = some C1V ∧
    WaveformDataset.load none C1file = Except.ok C1ds ∧
    iloc C1ds.parameter_samples 0 = Except.ok [("m1", 30), ("m2", 25)] ∧
    iloc C1ds.hplus 0 = Except.ok [1] ∧
    iloc C1ds.hcross 0 = Except.ok [1] ∧
    (C1ds.getitem 0 =
        Except.ok ⟨[("m1", 30), ("m2", 25)],
          vecMulMat [1] C1V.conjT, vecMulMat [1] C1V.conjT⟩ ∧
      SVDBasis.fseries_to_basis_coefficients (SVDBasis.from_file C1V.conjT) [1] =
        Except.ok (vecMulMat [1] C1V.conjT) ∧
      SVDBasis.fseries_to_basis_coefficients (SVDBasis.from_file C1V.conjT) [1] =
        Except.ok (vecMulMat [1] C1V.conjT)) :=
  ⟨rfl, rfl, rfl, rfl, rfl,
   spec_C1_amended C1file C1V C1ds rfl rfl 0 _ _ _ rfl rfl rfl⟩

/-- Claim C3 counterexample: the claim says load fails with SchemaError on
every file whose parameter and waveform tables have different row counts.
This file has 2 parameter rows and 1 waveform row, and load succeeds: the code
performs no row-count comparison anywhere. -/
theorem spec_C3_counterexample :
    WaveformDataset.load none C3file =
      Except.ok ⟨[1, 2], [[5]], [[7]], none, none⟩ := rfl

/-- Claim C3 amended: load fails (with `KeyError`, the failure the spec's
taxonomy calls SchemaError for a missing required column) whenever the
waveform group lacks h_plus; but it checks no row-count equality between the
parameter and waveform tables, loading successfully whenever both
polarization columns are present with equal lengths, whatever the parameter
row count. -/
theorem spec_C3_amended [Star α] (fp : DatasetFile π α)
    (t : Option (SampleRec π α → SampleRec π α)) :
    (fp.waveform_polarizations.lookup "h_plus" = none →
      WaveformDataset.load t fp = Except.error PyErr.keyError) ∧
    (∀ hp hc, fp.waveform_polarizations.lookup "h_plus" = some hp →
      fp.waveform_polarizations.lookup "h_cross" = some hc →
      hp.length = hc.length →
      WaveformDataset.load t fp =
        Except.ok { parameter_samples := fp.parameters, hplus := hp, hcross := hc,
                    _Vh := fp.rb_matrix_V.map Mat.conjT, transform := t }) := by
  constructor
  · intro h
    unfold WaveformDataset.load
    rw [h]
  · intro hp hc e1 e2 e3
    unfold WaveformDataset.load
    rw [e1, e2]
    exact if_pos e3

/-- Witness for C3 amended: a file missing h_plus fails with KeyError, and the
mismatched-row-count file loads successfully. -/
theorem spec_C3_amended_witness :
    (C3missing.waveform_polarizations.lookup "h_plus" = none ∧
      WaveformDataset.load none C3missing = Except.error PyErr.keyError) ∧
    (C3file.waveform_polarizations.lookup "h_plus" = some [[5]] ∧
      C3file.waveform_polarizations.lookup "h_cross" = some [[7]] ∧
      WaveformDataset.load none C3file =
        Except.ok { parameter_samples := C3file.parameters, hplus := [[5]],
                    hcross := [[7]], _Vh := C3file.rb_matrix_V.map Mat.conjT,
                    transform := none }) :=
  ⟨⟨rfl, (spec_C3_amended C3missing none).1 rfl⟩,
   ⟨rfl, rfl, (spec_C3_amended C3file none).2 [[5]] [[7]] rfl rfl rfl⟩⟩

/-- Claim C6 (confirmed): the scipy branch stores the leading
`min(n, available)` rows of the thin-SVD factor Vh (whose rows scipy orders by
descending singular value), retaining all of them when n = 0 or when n exceeds
the available rank, and stores that effective rank in `self.n`.  The
hypotheses are the thin-SVD shape guarantees:
`Vh.shape = (min(rows, cols), cols)`.  Note the code compares n against
`len(V)` (the column count of the training matrix) rather than the available
rank, but numpy slicing clamps, so the effective rank is still
`min(n, available)` in every case. -/
theorem spec_C6_scipy_truncation [CommRing α] [StarRing α] (b : SVDBasis α)
    (training_data : Mat α) (randVh : ℕ → Mat α) (scipyVh : Mat α) (n : ℕ)
    (hr : scipyVh.r = min training_data.r training_data.c)
    (hc : scipyVh.c = training_data.c) :
    b.generate_basis training_data randVh scipyVh n "scipy" =
      Except.ok
        { V := some (scipyVh.conjT.takeCols (if n = 0 then scipyVh.r else min n scipyVh.r)),
          Vh := some (scipyVh.takeRows (if n = 0 then scipyVh.r else min n scipyVh.r)),
          n := some (if n = 0 then scipyVh.r else min n scipyVh.r) } := by
  obtain ⟨R, C, F⟩ := scipyVh
  dsimp only at hr hc
  have hA : R ≤ C := by
    rw [hr, hc]
    exact min_le_right _ _
  have hstep : SVDBasis.generate_basis b training_data randVh ⟨R, C, F⟩ n "scipy" =
      if n = 0 ∨ C < n then
        Except.ok { V := some ⟨C, R, fun i j => star (F j i)⟩,
                    Vh := some ⟨R, C, F⟩, n := some R }
      else
        Except.ok { V := some ⟨C, min n R, fun i j => star (F j i)⟩,
                    Vh := some ⟨min n R, C, F⟩, n := some (min n R) } := rfl
  rw [hstep]
  dsimp only [Mat.conjT, Mat.takeCols, Mat.takeRows]
  by_cases h0 : n = 0
  · subst h0
    rw [if_pos (Or.inl rfl), if_pos (rfl : (0 : ℕ) = 0), Nat.min_self]
  · rw [if_neg h0]
    by_cases hbig : C < n
    · rw [if_pos (Or.inr hbig)]
      have hK : min n R = R := by omega
      rw [hK, Nat.min_self]
    · have hnot : ¬(n = 0 ∨ C < n) := by
        push_neg
        exact ⟨h0, le_of_not_lt hbig⟩
      rw [if_neg hnot]
      have hmm : min (min n R) R = min n R := by omega
      rw [hmm]

/-- Witness for C6 with a (2, 3) training matrix and requested rank 5. -/
theorem spec_C6_witness :
    C6Vh.r = min C6train.r C6train.c ∧ C6Vh.c = C6train.c ∧
    SVDBasis.generate_basis (SVDBasis.init : SVDBasis ℤ) C6train C6rand C6Vh 5 "scipy" =
      Except.ok
        { V := some (C6Vh.conjT.takeCols (if 5 = 0 then C6Vh.r else min 5 C6Vh.r)),
          Vh := some (C6Vh.takeRows (if 5 = 0 then C6Vh.r else min 5 C6Vh.r)),
          n := some (if 5 = 0 then C6Vh.r else min 5 C6Vh.r) } :=
  ⟨by decide, by decide,
   spec_C6_scipy_truncation SVDBasis.init C6train C6rand C6Vh 5 (by decide) (by decide)⟩

/-- Claim C8 (confirmed): for a basis holding V (with the §3 invariant
`Vh = V.T.conj()`, which holds after every populating operation — the
unconditional part of the C9 analysis),
`to_file` writes exactly V, and `from_file` on that matrix reproduces a
bit-exact V, a Vh equal to its conjugate transpose, and a rank equal to V's
column count, so project and reconstruct on the fresh object agree with the
original on every input. -/
theorem spec_C8_roundtrip [CommRing α] [StarRing α] (b : SVDBasis α) (v : Mat α)
    (hV : b.V = some v) (hVh : b.Vh = some v.conjT) :
    b.to_file = some v ∧
    (SVDBasis.from_file v).V = some v ∧
    (SVDBasis.from_file v).Vh = some v.conjT ∧
    (SVDBasis.from_file v).n = some v.c ∧
    (∀ fs, (SVDBasis.from_file v).fseries_to_basis_coefficients fs =
        b.fseries_to_basis_coefficients fs) ∧
    (∀ cs, (SVDBasis.from_file v).basis_coefficients_to_fseries cs =
        b.basis_coefficients_to_fseries cs) := by
  refine ⟨?_, rfl, rfl, rfl, ?_, ?_⟩
  · unfold SVDBasis.to_file
    rw [hV]
  · intro fs
    simp [SVDBasis.fseries_to_basis_coefficients, SVDBasis.from_file, hV]
  · intro cs
    simp [SVDBasis.basis_coefficients_to_fseries, SVDBasis.from_file, hVh]

/-- Witness for C8 at a concrete (2, 1) Gaussian-integer basis. -/
theorem spec_C8_witness :
    C8basis.V = some C8V ∧ C8basis.Vh = some C8V.conjT ∧
    (C8basis.to_file = some C8V ∧
     (SVDBasis.from_file C8V).V = some C8V ∧
     (SVDBasis.from_file C8V).Vh = some C8V.conjT ∧
     (SVDBasis.from_file C8V).n = some C8V.c ∧
     (∀ fs, (SVDBasis.from_file C8V).fseries_to_basis_coefficients fs =
         C8basis.fseries_to_basis_coefficients fs) ∧
     (∀ cs, (SVDBasis.from_file C8V).basis_coefficients_to_fseries cs =
         C8basis.basis_coefficients_to_fseries cs)) :=
  ⟨rfl, rfl, spec_C8_roundtrip C8basis C8V rfl rfl⟩

/-- Claim C9 counterexample: the claim asserts that after every operation that
populates the basis, the stored rank equals V's column count and Vh's row
count.  It fails for the random method with an oversized rank request:
sklearn's `randomized_svd` clamps the returned factor to
`min(n_components, min(M.shape))` rows without raising (see `C9clampRand`),
while line 49 stores `self.n = n`, the requested count.  On the 1-by-1
training matrix with n = 2 the populated basis stores rank 2 while V has 1
column and Vh has 1 row. -/
theorem spec_C9_counterexample :
    (SVDBasis.generate_basis (SVDBasis.init : SVDBasis ℤ) C9train C9clampRand C9Vh 2
        "random").map (fun b => (b.n, Option.map Mat.c b.V, Option.map Mat.r b.Vh)) =
      Except.ok (some 2, some 1, some 1) ∧ (2 : ℕ) ≠ 1 := by decide

/-- Claim C9 amended: after every successful populating operation, Vh is the
conjugate transpose of V (so V's column count always equals Vh's row count).
The stored rank moreover equals V's column count and Vh's row count after the
scipy method, after `from_file`, and after the random method whenever the
requested rank does not exceed `min(M.shape)` (n = 0, meaning all, included);
for larger requests the random branch stores the requested n while the
returned factor is clamped — the failure exhibited by
`spec_C9_counterexample`.  The hypothesis `hRand` is sklearn's real row-count
behavior: `randomized_svd(M, k)` returns `min(k, min(M.shape))` rows. -/
theorem spec_C9_amended [CommRing α] [StarRing α] (b b' : SVDBasis α)
    (training_data : Mat α) (randVh : ℕ → Mat α) (scipyVh : Mat α)
    (n : ℕ) (method : String)
    (hRand : ∀ k, (randVh k).r = min k (min training_data.r training_data.c))
    (hok : b.generate_basis training_data randVh scipyVh n method = Except.ok b') :
    (∃ w, b'.V = some w ∧ b'.Vh = some w.conjT) ∧
    (method = "scipy" →
      ∃ w, b'.V = some w ∧ b'.Vh = some w.conjT ∧ b'.n = some w.c ∧
        b'.n = some w.conjT.r) ∧
    (method = "random" → n ≤ min training_data.r training_data.c →
      ∃ w, b'.V = some w ∧ b'.Vh = some w.conjT ∧ b'.n = some w.c ∧
        b'.n = some w.conjT.r) ∧
    (∀ W : Mat α, ∃ w, (SVDBasis.from_file W).V = some w ∧
      (SVDBasis.from_file W).Vh = some w.conjT ∧
      (SVDBasis.from_file W).n = some w.c ∧
      (SVDBasis.from_file W).n = some w.conjT.r) := by
  simp only [SVDBasis.generate_basis] at hok
  by_cases hm1 : method = "random"
  · rw [if_pos hm1] at hok
    injection hok with h
    subst h
    refine ⟨⟨(randVh _).conjT, rfl, by rw [Mat.conjT_conjT]⟩, ?_, ?_,
      fun W => ⟨W, rfl, rfl, rfl, rfl⟩⟩
    · intro hs
      exact absurd (hm1.symm.trans hs) (by decide)
    · intro _ hn
      have hr' : (randVh (if n = 0 then min training_data.r training_data.c else n)).r
          = (if n = 0 then min training_data.r training_data.c else n) := by
        rw [hRand]
        by_cases h0 : n = 0
        · rw [if_pos h0]
          exact min_self _
        · rw [if_neg h0]
          omega
      refine ⟨(randVh _).conjT, rfl, by rw [Mat.conjT_conjT], ?_, ?_⟩
      · dsimp only [Mat.conjT]
        rw [hr']
      · dsimp only [Mat.conjT]
        rw [hr']
  · rw [if_neg hm1] at hok
    by_cases hm2 : method = "scipy"
    · rw [if_pos hm2] at hok
      by_cases hcond : n = 0 ∨ Mat.len scipyVh.conjT < n
      · rw [if_pos hcond] at hok
        injection hok with h
        subst h
        exact ⟨⟨scipyVh.conjT, rfl, by rw [Mat.conjT_conjT]⟩,
          fun _ => ⟨scipyVh.conjT, rfl, by rw [Mat.conjT_conjT], rfl, rfl⟩,
          fun hra _ => absurd hra hm1,
          fun W => ⟨W, rfl, rfl, rfl, rfl⟩⟩
      · rw [if_neg hcond] at hok
        injection hok with h
        subst h
        exact ⟨⟨scipyVh.conjT.takeCols n, rfl,
            by rw [Mat.conjT_takeCols, Mat.conjT_conjT]⟩,
          fun _ => ⟨scipyVh.conjT.takeCols n, rfl,
            by rw [Mat.conjT_takeCols, Mat.conjT_conjT], rfl, rfl⟩,
          fun hra _ => absurd hra hm1,
          fun W => ⟨W, rfl, rfl, rfl, rfl⟩⟩
    · rw [if_neg hm2] at hok
      exact Except.noConfusion hok

/-- Witness for C9 amended: the random method at requested rank 1 on the
(1, 1) training matrix, with sklearn's clamping oracle. -/
theorem spec_C9_amended_witness :
    (∀ k, (C9clampRand k).r = min k (min C9train.r C9train.c)) ∧
    SVDBasis.generate_basis (SVDBasis.init : SVDBasis ℤ) C9train C9clampRand C9Vh 1
        "random" =
      Except.ok ⟨some (C9clampRand 1).conjT, some (C9clampRand 1), some 1⟩ ∧
    ((∃ w, (⟨some (C9clampRand 1).conjT, some (C9clampRand 1), some 1⟩ :
          SVDBasis ℤ).V = some w ∧
        (⟨some (C9clampRand 1).conjT, some (C9clampRand 1), some 1⟩ :
          SVDBasis ℤ).Vh = some w.conjT) ∧
     (("random" : String) = "scipy" →
       ∃ w, (⟨some (C9clampRand 1).conjT, some (C9clampRand 1), some 1⟩ :
            SVDBasis ℤ).V = some w ∧
          (⟨some (C9clampRand 1).conjT, some (C9clampRand 1), some 1⟩ :
            SVDBasis ℤ).Vh = some w.conjT ∧
          (⟨some (C9clampRand 1).conjT, some (C9clampRand 1), some 1⟩ :
            SVDBasis ℤ).n = some w.c ∧
          (⟨some (C9clampRand 1).conjT, some (C9clampRand 1), some 1⟩ :
            SVDBasis ℤ).n = some w.conjT.r) ∧
     (("random" : String) = "random" → 1 ≤ min C9train.r C9train.c →
       ∃ w, (⟨some (C9clampRand 1).conjT, some (C9clampRand 1), some 1⟩ :
            SVDBasis ℤ).V = some w ∧
          (⟨some (C9clampRand 1).conjT, some (C9clampRand 1), some 1⟩ :
            SVDBasis ℤ).Vh = some w.conjT ∧
          (⟨some (C9clampRand 1).conjT, some (C9clampRand 1), some 1⟩ :
            SVDBasis ℤ).n = some w.c ∧
          (⟨some (C9clampRand 1).conjT, some (C9clampRand 1), some 1⟩ :
            SVDBasis ℤ).n = some w.conjT.r) ∧
     (∀ W : Mat ℤ, ∃ w, (SVDBasis.from_file W).V = some w ∧
        (SVDBasis.from_file W).Vh = some w.conjT ∧
        (SVDBasis.from_file W).n = some w.c ∧
        (SVDBasis.from_file W).n = some w.conjT.r)) :=
  ⟨fun k => by simp [C9clampRand, C9train], rfl,
   spec_C9_amended SVDBasis.init
     ⟨some (C9clampRand 1).conjT, some (C9clampRand 1), some 1⟩
     C9train C9clampRand C9Vh 1 "random"
     (fun k => by simp [C9clampRand, C9train]) rfl⟩

/-- Claim C10 (confirmed): on a loaded dataset (whose waveform columns have
the same row count as the parameter table), get at a negative index i with
-length <= i < 0 never raises IndexError; it runs exactly the same
projection-and-transform pipeline as the corresponding non-negative index
length + i, producing the identical result. -/
theorem spec_C10_negative_index [CommRing α] (d : WaveformDataset π α) (i : ℤ)
    (hhp : d.hplus.length = d.parameter_samples.length)
    (hhc : d.hcross.length = d.parameter_samples.length)
    (h1 : -(d.len : ℤ) ≤ i) (h2 : i < 0) :
    d.getitem i = d.getitem ((d.len : ℤ) + i) ∧
    d.getitem i ≠ Except.error PyErr.indexError := by
  have hlen : (d.len : ℤ) = (d.parameter_samples.length : ℤ) := rfl
  have l1 : -(d.parameter_samples.length : ℤ) ≤ i := h1
  have l2 : -(d.hplus.length : ℤ) ≤ i := by rw [hhp]; exact h1
  have l3 : -(d.hcross.length : ℤ) ≤ i := by rw [hhc]; exact h1
  obtain ⟨p, hp⟩ := iloc_ok d.parameter_samples i l1 h2
  obtain ⟨x2, hx2⟩ := iloc_ok d.hplus i l2 h2
  obtain ⟨x3, hx3⟩ := iloc_ok d.hcross i l3 h2
  have e1 : iloc d.parameter_samples ((d.len : ℤ) + i) = Except.ok p := by
    rw [hlen, ← iloc_neg d.parameter_samples i l1 h2]
    exact hp
  have e2 : iloc d.hplus ((d.len : ℤ) + i) = Except.ok x2 := by
    rw [hlen, ← hhp, ← iloc_neg d.hplus i l2 h2]
    exact hx2
  have e3 : iloc d.hcross ((d.len : ℤ) + i) = Except.ok x3 := by
    rw [hlen, ← hhc, ← iloc_neg d.hcross i l3 h2]
    exact hx3
  constructor
  · rw [getitem_eq d i p x2 x3 hp hx2 hx3,
      getitem_eq d ((d.len : ℤ) + i) p x2 x3 e1 e2 e3]
  · rw [getitem_eq d i p x2 x3 hp hx2 hx3]
    cases d._Vh with
    | none => simp
    | some Vh => cases d.transform <;> simp

/-- Witness for C10 at index -1 of a 2-sample dataset. -/
theorem spec_C10_witness :
    C10ds.hplus.length = C10ds.parameter_samples.length ∧
    C10ds.hcross.length = C10ds.parameter_samples.length ∧
    -((C10ds.len : ℤ)) ≤ -1 ∧ (-1 : ℤ) < 0 ∧
    (C10ds.getitem (-1) = C10ds.getitem ((C10ds.len : ℤ) + -1) ∧
      C10ds.getitem (-1) ≠ Except.error PyErr.indexError) :=
  ⟨rfl, rfl, by decide, by decide,
   spec_C10_negative_index C10ds (-1) rfl rfl (by decide) (by decide)⟩

end Dingo
